import Mathlib

/-!
Shallow embedding of the core subsystems of the `archaea_vis` dashboard:

* the curation decision endpoint `POST /api/curation/decide`
  (transition table, audit insert, candidate update, next-protein query,
  transactional rollback), and
* the novel-fold cluster endpoints `GET /api/novel-folds` and
  `GET /api/novel-folds/:id` (Tier-1 / Tier-2 cluster summaries,
  cross-tier hit queries, phylum filtering, JSON response mapping).

Database rows are records over `String`, `Nat`, `Int` and `ℚ`, with `Option`
for nullable columns; the database is explicit state (`DB`).  Numeric score
columns are modelled as exact rationals: the claims under study concern
null/zero structure and which rows are aggregated, not rounding.
-/

namespace ArchaeaVis

/-- The `DECISION_TO_STATUS` transition table of the decide route. -/
def DECISION_TO_STATUS : String → Option String
  | "approve" => some "classified"
  | "flag_novel" => some "classified"
  | "classify" => some "classified"
  | "defer" => some "deferred"
  | "reject" => some "rejected"
  | "skip" => some "pending"
  | _ => none

/-- The `VALID_DECISIONS` allow-list of the decide route. -/
def VALID_DECISIONS : List String :=
  ["approve", "flag_novel", "defer", "reject", "skip", "classify"]

/-- The status a valid decision type maps to. -/
def mappedStatus (d : String) : String := (DECISION_TO_STATUS d).getD ""

/-- A row of `archaea.curation_candidates`, carrying also the queue columns of
the database view `v_curation_queue_full` that the next-protein query reads.
Modelled from the spec: the view itself is not part of the repository source;
per sections 4.2 and 3 of the spec it exposes each candidate with its mutable
`curation_status`, a `has_structure` flag that is true exactly when the
protein's structure link is non-null, and the `priority_rank` /
`quality_score` queue ordering columns. -/
structure Candidate where
  protein_id : String
  curation_status : String
  is_novel_fold : Option Bool
  ecod_x_group : Option String
  ecod_h_group : Option String
  ecod_t_group : Option String
  ecod_f_group : Option String
  classified_at : Option Nat
  reviewed_at : Option Nat
  curator_notes : Option String
  has_structure : Bool
  priority_rank : Option Int
  quality_score : Option ℚ
deriving DecidableEq, Repr

/-- A row of the append-only audit table `archaea.curation_decisions`. -/
structure Decision where
  protein_id : String
  curator_name : String
  decision_type : String
  previous_status : String
  new_status : String
  ecod_x_group : Option String
  ecod_h_group : Option String
  ecod_t_group : Option String
  ecod_f_group : Option String
  is_novel_fold : Option Bool
  is_novel_topology : Option Bool
  confidence_level : Option String
  notes : Option String
deriving DecidableEq, Repr

/-- The request body (`ArchaeaCurationDecision`).  The ECOD group fields are
`Option (Option String)`: the outer `Option` distinguishes an absent
(undefined) field (`none`) from a field explicitly present (`some v`, where
`v` may itself be null), because the update step of the route tests
`!== undefined`. -/
structure Req where
  protein_id : String
  curator : String
  decision_type : String
  ecod_x_group : Option (Option String)
  ecod_h_group : Option (Option String)
  ecod_t_group : Option (Option String)
  ecod_f_group : Option (Option String)
  is_novel_fold : Option Bool
  is_novel_topology : Option Bool
  confidence_level : Option String
  notes : Option String
deriving DecidableEq, Repr

/-- JavaScript `x || null` on an optional-optional string field
(undefined, null and the empty string all coalesce to SQL null). -/
def orNullOpt : Option (Option String) → Option String
  | some (some s) => if s == "" then none else some s
  | _ => none

/-- JavaScript `x || null` on an optional string field. -/
def orNullStr : Option String → Option String
  | some s => if s == "" then none else some s
  | none => none

/-- JavaScript `x || null` on an optional boolean field
(only `true` survives). -/
def orNullBool : Option Bool → Option Bool
  | some true => some true
  | _ => none

/-- The audit row the route inserts into `archaea.curation_decisions`
(step 2 of the transaction, executed for every decision type). -/
def mkAudit (body : Req) (previousStatus newStatus : String) : Decision where
  protein_id := body.protein_id
  curator_name := body.curator
  decision_type := body.decision_type
  previous_status := previousStatus
  new_status := newStatus
  ecod_x_group := orNullOpt body.ecod_x_group
  ecod_h_group := orNullOpt body.ecod_h_group
  ecod_t_group := orNullOpt body.ecod_t_group
  ecod_f_group := orNullOpt body.ecod_f_group
  is_novel_fold := orNullBool body.is_novel_fold
  is_novel_topology := orNullBool body.is_novel_topology
  confidence_level := orNullStr body.confidence_level
  notes := orNullStr body.notes

/-- The dynamically built `UPDATE archaea.curation_candidates` statement
(step 3, not executed for `skip`), applied to one candidate row; `now`
stands for `CURRENT_TIMESTAMP`. -/
def applyUpdate (now : Nat) (body : Req) (newStatus : String) (c : Candidate) :
    Candidate where
  protein_id := c.protein_id
  curation_status := newStatus
  is_novel_fold :=
    if body.decision_type == "flag_novel" || body.is_novel_fold == some true then
      some true
    else c.is_novel_fold
  ecod_x_group := body.ecod_x_group.getD c.ecod_x_group
  ecod_h_group := body.ecod_h_group.getD c.ecod_h_group
  ecod_t_group := body.ecod_t_group.getD c.ecod_t_group
  ecod_f_group := body.ecod_f_group.getD c.ecod_f_group
  classified_at := if newStatus == "classified" then some now else c.classified_at
  reviewed_at := some now
  curator_notes :=
    match body.notes with
    | some s => if s == "" then c.curator_notes else some s
    | none => c.curator_notes
  has_structure := c.has_structure
  priority_rank := c.priority_rank
  quality_score := c.quality_score

/-- The mutable database state seen by the curation workflow. -/
structure DB where
  candidates : List Candidate
  decisions : List Decision
deriving DecidableEq, Repr

/-- Strict "sorts before" for the tie-break `quality_score DESC NULLS LAST`. -/
def qualityBefore (a b : Candidate) : Bool :=
  match a.quality_score, b.quality_score with
  | some x, some y => decide (y < x)
  | some _, none => true
  | none, _ => false

/-- Strict "row `a` sorts before row `b`" for the next-protein ordering
`ORDER BY priority_rank ASC NULLS LAST, quality_score DESC NULLS LAST`. -/
def queueBefore (a b : Candidate) : Bool :=
  match a.priority_rank, b.priority_rank with
  | some x, some y => decide (x < y) || (decide (x = y) && qualityBefore a b)
  | some _, none => true
  | none, some _ => false
  | none, none => qualityBefore a b

/-- `LIMIT 1` under the queue ordering: a minimal element (first such). -/
def pickBest : List Candidate → Option Candidate
  | [] => none
  | x :: xs => some (xs.foldl (fun b c => if queueBefore c b then c else b) x)

/-- Eligibility filter of the next-protein query:
`curation_status = 'pending' AND has_structure = TRUE AND protein_id != $1`. -/
def eligibleNext (pid : String) (c : Candidate) : Bool :=
  c.curation_status == "pending" && c.has_structure && !(c.protein_id == pid)

/-- Step 4 of the transaction: the next-protein query over
`v_curation_queue_full`. -/
def nextProtein (db : DB) (pid : String) : Option String :=
  (pickBest (db.candidates.filter (eligibleNext pid))).map (·.protein_id)

/-- Failure injection for the store calls of the transaction: a flagged query
throws, and the route's catch block issues `ROLLBACK`. -/
structure FailSpec where
  failSelect : Bool
  failInsert : Bool
  failUpdate : Bool
  failNext : Bool
  failCommit : Bool
deriving DecidableEq, Repr

/-- No injected failure. -/
def noFail : FailSpec := ⟨false, false, false, false, false⟩

/-- The HTTP-level outcome of the decide route. -/
inductive SubmitResult where
  | badRequest (msg : String)
  | notFound
  | serverError
  | ok (new_status : String) (next_protein : Option String)
deriving DecidableEq, Repr

/-- The database state the transaction commits: the audit insert plus
(unless the decision is `skip`) the candidate update. -/
def commitState (now : Nat) (db : DB) (body : Req)
    (previousStatus newStatus : String) : DB :=
  let db1 : DB :=
    { db with decisions := db.decisions ++ [mkAudit body previousStatus newStatus] }
  if body.decision_type == "skip" then db1
  else
    { db1 with
      candidates := db1.candidates.map fun c =>
        if c.protein_id == body.protein_id then applyUpdate now body newStatus c
        else c }

/-- The decide route `POST` handler with failure injection: returns the
HTTP-level result and the database state after the request (`db` unchanged
whenever the transaction rolls back or never starts). -/
def submitDecisionF (fs : FailSpec) (now : Nat) (db : DB) (body : Req) :
    SubmitResult × DB :=
  if body.protein_id == "" then (.badRequest "protein_id is required", db)
  else if body.curator == "" then (.badRequest "curator name is required", db)
  else if body.decision_type == "" || !(VALID_DECISIONS.contains body.decision_type) then
    (.badRequest "Invalid decision_type", db)
  else if fs.failSelect then (.serverError, db)
  else
    match db.candidates.find? (fun c => c.protein_id == body.protein_id) with
    | none => (.notFound, db)
    | some cur =>
      if fs.failInsert then (.serverError, db)
      else if !(body.decision_type == "skip") && fs.failUpdate then (.serverError, db)
      else if fs.failNext then (.serverError, db)
      else if fs.failCommit then (.serverError, db)
      else
        let newStatus := mappedStatus body.decision_type
        let db2 := commitState now db body cur.curation_status newStatus
        (.ok newStatus (nextProtein db2 body.protein_id), db2)

/-- The decide route without injected failures. -/
def submitDecision (now : Nat) (db : DB) (body : Req) : SubmitResult × DB :=
  submitDecisionF noFail now db body

/-- The database state after `n` successive calls of the decide route with
the same body. -/
def iterateSubmit (now : Nat) (body : Req) (db : DB) : Nat → DB
  | 0 => db
  | n + 1 => (submitDecision now (iterateSubmit now body db n) body).2

/-- Comparison on `priority_rank` values under `ASC NULLS LAST`. -/
def rankLe : Option Int → Option Int → Bool
  | some x, some y => decide (x ≤ y)
  | some _, none => true
  | none, some _ => false
  | none, none => true

/-- A row of `archaea.novel_fold_clusters` (Tier-1 membership). -/
structure FoldClusterRow where
  protein_id : String
  cluster_id : String
  cluster_size : Nat
  mean_plddt : Option ℚ
  phylum : Option String
  genome_accession : Option String
deriving DecidableEq, Repr

/-- A row of `archaea.novel_domain_clusters` (Tier-2 membership). -/
structure DomainClusterRow where
  protein_id : String
  domain_num : Nat
  domain_id : String
  domain_range : Option String
  cluster_id : String
  cluster_size : Nat
  dpam_prob : Option ℚ
  dali_zscore : Option ℚ
  mean_plddt : Option ℚ
  phylum : Option String
  genome_accession : Option String
deriving DecidableEq, Repr

/-- A row of `archaea.novel_cross_tier_hits`. -/
structure CrossTierHit where
  tier1_protein_id : String
  tier2_protein_id : String
  tier2_domain_num : Nat
  fident : Option ℚ
  alnlen : Option Nat
  evalue : Option ℚ
  alntmscore : Option ℚ
deriving DecidableEq, Repr

/-- JavaScript-truthy values of a list of nullable strings (the summary loop
of `handleTier2` adds a value to its sets only when it is truthy, so null and
the empty string are dropped). -/
def truthyVals (l : List (Option String)) : List String :=
  l.filterMap fun v =>
    match v with
    | some s => if s == "" then none else some s
    | none => none

/-- Null-skipping SQL-style average: the running sum divided by the count of
non-null values, or null when no value was non-null. -/
def avgOrNull (vals : List ℚ) : Option ℚ :=
  if vals.length = 0 then none else some (vals.sum / vals.length)

/-- The inline cluster summary object built by `handleTier2`. -/
structure Tier2Cluster where
  cluster_id : String
  cluster_size : Nat
  cross_phylum : Bool
  phylum_count : Nat
  genome_count : Nat
  protein_count : Nat
  domain_count : Nat
  avg_plddt : Option ℚ
  avg_dpam_prob : Option ℚ
  avg_dali_zscore : Option ℚ
  phyla : List String
deriving DecidableEq, Repr

/-- The summary `handleTier2` computes inline over the member rows of a
cluster.  The route fetches members with `ORDER BY mean_plddt DESC`; that
order is irrelevant here because every aggregate below is a function of the
row multiset (sets of first occurrences, counts, and null-skipping sums), so
members are taken in table order. -/
def tier2Summary (cid : String) (members : List DomainClusterRow) : Tier2Cluster :=
  let phylumSet := (truthyVals (members.map (·.phylum))).dedup
  let genomeSet := (truthyVals (members.map (·.genome_accession))).dedup
  let proteinSet := (members.map (·.protein_id)).dedup
  let plddtVals := members.filterMap (·.mean_plddt)
  let dpamVals := members.filterMap (·.dpam_prob)
  let daliVals := members.filterMap (·.dali_zscore)
  { cluster_id := cid
    cluster_size := (members.head?.map (·.cluster_size)).getD 0
    cross_phylum := decide (1 < phylumSet.length)
    phylum_count := phylumSet.length
    genome_count := genomeSet.length
    protein_count := proteinSet.length
    domain_count := members.length
    avg_plddt := avgOrNull plddtVals
    avg_dpam_prob := avgOrNull dpamVals
    avg_dali_zscore := avgOrNull daliVals
    phyla := phylumSet.mergeSort (fun a b => decide (a ≤ b)) }

/-- `handleTier2`, restricted to its cluster summary: 404 (`none`) when the
cluster id has no member rows, otherwise the inline summary. -/
def handleTier2Summary (tbl : List DomainClusterRow) (cid : String) :
    Option Tier2Cluster :=
  let members := tbl.filter (·.cluster_id == cid)
  if members.isEmpty then none else some (tier2Summary cid members)

/-- A row of the Tier-1 summary view `v_novel_fold_cluster_summary`. -/
structure Tier1Summary where
  cluster_id : String
  cluster_size : Nat
  cross_phylum : Bool
  phylum_count : Nat
  genome_count : Nat
  avg_plddt : Option ℚ
  min_plddt : Option ℚ
  max_plddt : Option ℚ
  phyla : List String
deriving DecidableEq, Repr

/-- Modelled from the spec: the database view
`archaea.v_novel_fold_cluster_summary` is not part of the repository source
(the routes only query it).  Section 4.1 (`summarizeTier1Cluster`) defines it
as the per-cluster aggregation of `novel_fold_clusters`: member count,
`cross_phylum` true iff the distinct phylum count exceeds one, null-skipping
min/max/avg pLDDT, distinct phylum/genome counts, and the sorted distinct
phylum list; no row exists for a cluster id with no members. -/
def summaryView (tbl : List FoldClusterRow) (cid : String) : Option Tier1Summary :=
  let members := tbl.filter (·.cluster_id == cid)
  if members.isEmpty then none
  else
    let phylumSet := (members.filterMap (·.phylum)).dedup
    let genomeSet := (members.filterMap (·.genome_accession)).dedup
    let plddtVals := members.filterMap (·.mean_plddt)
    some
      { cluster_id := cid
        cluster_size := members.length
        cross_phylum := decide (1 < phylumSet.length)
        phylum_count := phylumSet.length
        genome_count := genomeSet.length
        avg_plddt := avgOrNull plddtVals
        min_plddt := plddtVals.min?
        max_plddt := plddtVals.max?
        phyla := phylumSet.mergeSort (fun a b => decide (a ≤ b)) }

/-- Cluster id validation of the detail route (`^T[12]_C\d+$`). -/
def validClusterId (s : String) : Bool :=
  ("T1_C".toList.isPrefixOf s.toList || "T2_C".toList.isPrefixOf s.toList) &&
    !(s.toList.drop 4).isEmpty && (s.toList.drop 4).all Char.isDigit

/-- The HTTP-level outcome of `GET /api/novel-folds/:id`, restricted to the
cluster summary part of the response body. -/
inductive DetailResult where
  | badRequest
  | notFoundR
  | okT1 (cluster : Tier1Summary)
  | okT2 (cluster : Tier2Cluster)
deriving DecidableEq, Repr

/-- The `GET /api/novel-folds/:id` dispatcher: id validation, tier dispatch on
the `T1_` prefix, and 404 when the summary query returns no row. -/
def getClusterDetail (foldTbl : List FoldClusterRow) (domTbl : List DomainClusterRow)
    (cid : String) : DetailResult :=
  if !(validClusterId cid) then .badRequest
  else if "T1_".toList.isPrefixOf cid.toList then
    match summaryView foldTbl cid with
    | none => .notFoundR
    | some s => .okT1 s
  else
    match handleTier2Summary domTbl cid with
    | none => .notFoundR
    | some s => .okT2 s

/-- SQL `ORDER BY <score> DESC` as a non-strict "sorts not after" relation
(SQL treats null as greatest, so `DESC` puts nulls first). -/
def scoreDescLe (x y : Option ℚ) : Bool :=
  match x, y with
  | none, _ => true
  | some _, none => false
  | some a, some b => decide (b ≤ a)

/-- An output row of the Tier-1 cross-tier hit query (the tier-2 cluster
columns come from the join with `novel_domain_clusters`). -/
structure EnrichedHitT1 where
  tier1_protein_id : String
  tier2_protein_id : String
  tier2_domain_num : Nat
  tier2_cluster_id : String
  tier2_cluster_size : Nat
  fident : Option ℚ
  alnlen : Option Nat
  evalue : Option ℚ
  alntmscore : Option ℚ
deriving DecidableEq, Repr

/-- An output row of the Tier-2 cross-tier hit query (the tier-1 cluster
columns come from the join with `novel_fold_clusters`). -/
structure EnrichedHitT2 where
  tier1_protein_id : String
  tier2_protein_id : String
  tier2_domain_num : Nat
  tier1_cluster_id : String
  tier1_cluster_size : Nat
  fident : Option ℚ
  alnlen : Option Nat
  evalue : Option ℚ
  alntmscore : Option ℚ
deriving DecidableEq, Repr

/-- Join output row of the Tier-1 cross-tier query. -/
def enrichT1 (ct : CrossTierHit) (ndc : DomainClusterRow) : EnrichedHitT1 where
  tier1_protein_id := ct.tier1_protein_id
  tier2_protein_id := ct.tier2_protein_id
  tier2_domain_num := ct.tier2_domain_num
  tier2_cluster_id := ndc.cluster_id
  tier2_cluster_size := ndc.cluster_size
  fident := ct.fident
  alnlen := ct.alnlen
  evalue := ct.evalue
  alntmscore := ct.alntmscore

/-- Join output row of the Tier-2 cross-tier query. -/
def enrichT2 (ct : CrossTierHit) (nfc : FoldClusterRow) : EnrichedHitT2 where
  tier1_protein_id := ct.tier1_protein_id
  tier2_protein_id := ct.tier2_protein_id
  tier2_domain_num := ct.tier2_domain_num
  tier1_cluster_id := nfc.cluster_id
  tier1_cluster_size := nfc.cluster_size
  fident := ct.fident
  alnlen := ct.alnlen
  evalue := ct.evalue
  alntmscore := ct.alntmscore

/-- The unordered join part of the Tier-1 cross-tier query: hits whose
tier-1 side is a member protein of the cluster, inner-joined with
`novel_domain_clusters` on the tier-2 `(protein_id, domain_num)` key. -/
def tier1CrossRaw (hits : List CrossTierHit) (domTbl : List DomainClusterRow)
    (foldTbl : List FoldClusterRow) (cid : String) : List EnrichedHitT1 :=
  (hits.filter fun ct =>
      foldTbl.any fun m => m.cluster_id == cid && m.protein_id == ct.tier1_protein_id).flatMap
    fun ct =>
      (domTbl.filter fun ndc =>
          ndc.protein_id == ct.tier2_protein_id &&
            ndc.domain_num == ct.tier2_domain_num).map
        (enrichT1 ct)

/-- The cross-tier hit query of `handleTier1`, `ORDER BY ct.alntmscore DESC`. -/
def tier1CrossTierHits (hits : List CrossTierHit) (domTbl : List DomainClusterRow)
    (foldTbl : List FoldClusterRow) (cid : String) : List EnrichedHitT1 :=
  (tier1CrossRaw hits domTbl foldTbl cid).mergeSort
    fun a b => scoreDescLe a.alntmscore b.alntmscore

/-- The unordered join part of the Tier-2 cross-tier query: hits whose
tier-2 protein owns a member domain of the cluster, inner-joined with
`novel_fold_clusters` on the tier-1 protein id. -/
def tier2CrossRaw (hits : List CrossTierHit) (foldTbl : List FoldClusterRow)
    (domTbl : List DomainClusterRow) (cid : String) : List EnrichedHitT2 :=
  (hits.filter fun ct =>
      (((domTbl.filter (·.cluster_id == cid)).map (·.protein_id)).contains
        ct.tier2_protein_id)).flatMap
    fun ct =>
      (foldTbl.filter fun nfc => nfc.protein_id == ct.tier1_protein_id).map
        (enrichT2 ct)

/-- The cross-tier hit query of `handleTier2`, `ORDER BY ct.alntmscore DESC`. -/
def tier2CrossTierHits (hits : List CrossTierHit) (foldTbl : List FoldClusterRow)
    (domTbl : List DomainClusterRow) (cid : String) : List EnrichedHitT2 :=
  (tier2CrossRaw hits foldTbl domTbl cid).mergeSort
    fun a b => scoreDescLe a.alntmscore b.alntmscore

/-- Case-insensitive SQL `ILIKE '%needle%'` on a nullable column, for a
needle without wildcard characters; SQL comparison with null is not true. -/
def ilikeSub (v : Option String) (needle : String) : Bool :=
  match v with
  | none => false
  | some s =>
    decide (List.IsInfix (needle.toList.map Char.toLower) (s.toList.map Char.toLower))

/-- The `WHERE` clause of the grouped Tier-2 `baseQuery` of
`GET /api/novel-folds?tier=2`: the `min_size` guard (only added when the
parameter exceeds 1) and the phylum membership subquery
`cluster_id IN (SELECT cluster_id FROM novel_domain_clusters WHERE phylum ILIKE ...)`,
which is evaluated against raw per-row phylum values. -/
def tier2RowCond (tbl : List DomainClusterRow) (minSize : Nat)
    (phylumF : Option String) (r : DomainClusterRow) : Bool :=
  (decide (minSize ≤ 1) || decide (minSize ≤ r.cluster_size)) &&
    (match phylumF with
     | none => true
     | some p => tbl.any fun q => q.cluster_id == r.cluster_id && ilikeSub q.phylum p)

/-- The distinct cluster ids produced by the `GROUP BY cluster_id` of the
Tier-2 listing after its `WHERE` clause. -/
def tier2ListClusterIds (tbl : List DomainClusterRow) (minSize : Nat)
    (phylumF : Option String) : List String :=
  ((tbl.filter (tier2RowCond tbl minSize phylumF)).map (·.cluster_id)).dedup

/-- JavaScript truthiness mapping applied to a numeric response field
(`v ? parseFloat(String(v)) : null`): null and 0 both map to null. -/
def jsNumOut (v : Option ℚ) : Option ℚ :=
  match v with
  | some q => if q == 0 then none else some q
  | none => none

/-- Response mapping of a Tier-1 cluster summary row (detail and list). -/
def mapTier1SummaryResp (c : Tier1Summary) : Tier1Summary :=
  { c with
    avg_plddt := jsNumOut c.avg_plddt
    min_plddt := jsNumOut c.min_plddt
    max_plddt := jsNumOut c.max_plddt }

/-- A row of the grouped Tier-2 listing `baseQuery`. -/
structure Tier2ListItem where
  cluster_id : String
  cluster_size : Nat
  cross_phylum : Bool
  min_plddt : Option ℚ
  max_plddt : Option ℚ
  avg_plddt : Option ℚ
  avg_dpam_prob : Option ℚ
  phylum_count : Nat
  genome_count : Nat
  protein_count : Nat
deriving DecidableEq, Repr

/-- Response mapping of a Tier-2 listing item. -/
def mapTier2ListItemResp (c : Tier2ListItem) : Tier2ListItem :=
  { c with
    avg_plddt := jsNumOut c.avg_plddt
    min_plddt := jsNumOut c.min_plddt
    max_plddt := jsNumOut c.max_plddt
    avg_dpam_prob := jsNumOut c.avg_dpam_prob }

/-- Response mapping of a Tier-1 member row (`mean_plddt` field). -/
def mapT1MemberResp (m : FoldClusterRow) : FoldClusterRow :=
  { m with mean_plddt := jsNumOut m.mean_plddt }

/-- Response mapping of a Tier-2 member row. -/
def mapT2MemberResp (m : DomainClusterRow) : DomainClusterRow :=
  { m with
    mean_plddt := jsNumOut m.mean_plddt
    dpam_prob := jsNumOut m.dpam_prob
    dali_zscore := jsNumOut m.dali_zscore }

/-- A Foldseek edge row of the Tier-1 detail response. -/
structure EdgeT1 where
  query : String
  target : String
  fident : Option ℚ
  alnlen : Option Nat
  evalue : Option ℚ
  bits : Option ℚ
  lddt : Option ℚ
  prob : Option ℚ
deriving DecidableEq, Repr

/-- Response mapping of a Tier-1 edge row. -/
def mapT1EdgeResp (e : EdgeT1) : EdgeT1 :=
  { e with
    fident := jsNumOut e.fident
    evalue := jsNumOut e.evalue
    lddt := jsNumOut e.lddt
    prob := jsNumOut e.prob }

/-- A Foldseek edge row of the Tier-2 detail response. -/
structure EdgeT2 where
  query : String
  target : String
  fident : Option ℚ
  alnlen : Option Nat
  evalue : Option ℚ
  bits : Option ℚ
  alntmscore : Option ℚ
  qtmscore : Option ℚ
  ttmscore : Option ℚ
deriving DecidableEq, Repr

/-- Response mapping of a Tier-2 edge row. -/
def mapT2EdgeResp (e : EdgeT2) : EdgeT2 :=
  { e with
    fident := jsNumOut e.fident
    evalue := jsNumOut e.evalue
    alntmscore := jsNumOut e.alntmscore
    qtmscore := jsNumOut e.qtmscore
    ttmscore := jsNumOut e.ttmscore }

/-- Response mapping of a cross-tier hit row (both detail handlers). -/
def mapCrossHitResp (r : EnrichedHitT1) : EnrichedHitT1 :=
  { r with
    fident := jsNumOut r.fident
    evalue := jsNumOut r.evalue
    alntmscore := jsNumOut r.alntmscore }

/-! Helper lemmas. -/

theorem find?_map_update {α : Type} (p : α → Bool) (f : α → α)
    (hp : ∀ a, p (f a) = p a) :
    ∀ (l : List α) (x : α), l.find? p = some x →
      (l.map fun a => if p a then f a else a).find? p = some (f x)
  | [], x, h => by simp at h
  | a :: l, x, h => by
    by_cases ha : p a = true
    · rw [List.find?_cons_of_pos l ha] at h
      injection h with h
      subst h
      simp only [List.map_cons, if_pos ha]
      exact List.find?_cons_of_pos _ (by rw [hp]; exact ha)
    · rw [List.find?_cons_of_neg l ha] at h
      simp only [List.map_cons, if_neg ha]
      rw [List.find?_cons_of_neg _ ha]
      exact find?_map_update p f hp l x h

theorem applyUpdate_protein_id (now : Nat) (body : Req) (ns : String) (c : Candidate) :
    (applyUpdate now body ns c).protein_id = c.protein_id := rfl

theorem commitState_decisions (now : Nat) (db : DB) (body : Req) (ps ns : String) :
    (commitState now db body ps ns).decisions = db.decisions ++ [mkAudit body ps ns] := by
  unfold commitState
  by_cases h : (body.decision_type == "skip") = true <;> simp [h]

theorem commitState_candidates_skip (now : Nat) (db : DB) (body : Req) (ps ns : String)
    (h : body.decision_type = "skip") :
    (commitState now db body ps ns).candidates = db.candidates := by
  simp [commitState, h]

theorem commitState_candidates (now : Nat) (db : DB) (body : Req) (ps ns : String)
    (h : body.decision_type ≠ "skip") :
    (commitState now db body ps ns).candidates =
      db.candidates.map fun c =>
        if c.protein_id == body.protein_id then applyUpdate now body ns c else c := by
  simp [commitState, h]

theorem submitDecisionF_success (fs : FailSpec) (now : Nat) (db : DB) (body : Req)
    (cur : Candidate)
    (hpid : body.protein_id ≠ "") (hcur : body.curator ≠ "")
    (hdec : body.decision_type ∈ VALID_DECISIONS)
    (hfound : db.candidates.find? (fun c => c.protein_id == body.protein_id) = some cur)
    (h1 : fs.failSelect = false) (h2 : fs.failInsert = false)
    (h3 : fs.failUpdate = false) (h4 : fs.failNext = false) (h5 : fs.failCommit = false) :
    submitDecisionF fs now db body =
      (SubmitResult.ok (mappedStatus body.decision_type)
        (nextProtein
          (commitState now db body cur.curation_status (mappedStatus body.decision_type))
          body.protein_id),
       commitState now db body cur.curation_status (mappedStatus body.decision_type)) := by
  have hne : body.decision_type ≠ "" := by
    intro h
    rw [h] at hdec
    simp [VALID_DECISIONS] at hdec
  have hcont : VALID_DECISIONS.contains body.decision_type = true :=
    List.elem_eq_true_of_mem hdec
  simp [submitDecisionF, hpid, hcur, hne, hcont, hdec, h1, hfound, h2, h3, h4, h5]

theorem submitDecision_success (now : Nat) (db : DB) (body : Req) (cur : Candidate)
    (hpid : body.protein_id ≠ "") (hcur : body.curator ≠ "")
    (hdec : body.decision_type ∈ VALID_DECISIONS)
    (hfound : db.candidates.find? (fun c => c.protein_id == body.protein_id) = some cur) :
    submitDecision now db body =
      (SubmitResult.ok (mappedStatus body.decision_type)
        (nextProtein
          (commitState now db body cur.curation_status (mappedStatus body.decision_type))
          body.protein_id),
       commitState now db body cur.curation_status (mappedStatus body.decision_type)) :=
  submitDecisionF_success noFail now db body cur hpid hcur hdec hfound rfl rfl rfl rfl rfl

/-! Claim theorems. -/

/-- C1: a committing `submitDecision` call (any of the six valid decision
types, `skip` included) appends exactly one audit row in the same
transaction, recording the protein id, the curator, the decision type, the
candidate's previous status as read inside the transaction, and the computed
new status; and for a non-skip decision the candidate's `curation_status`
afterwards equals the target of the transition table. -/
theorem submitDecision_audit_complete (now : Nat) (db : DB) (body : Req)
    (cur : Candidate)
    (hpid : body.protein_id ≠ "") (hcur : body.curator ≠ "")
    (hdec : body.decision_type ∈ VALID_DECISIONS)
    (hfound : db.candidates.find? (fun c => c.protein_id == body.protein_id) = some cur) :
    (∃ d : Decision,
        (submitDecision now db body).2.decisions = db.decisions ++ [d] ∧
        d.protein_id = body.protein_id ∧
        d.curator_name = body.curator ∧
        d.decision_type = body.decision_type ∧
        d.previous_status = cur.curation_status ∧
        d.new_status = mappedStatus body.decision_type) ∧
      (body.decision_type ≠ "skip" →
        ∃ c' : Candidate,
          (submitDecision now db body).2.candidates.find?
              (fun c => c.protein_id == body.protein_id) = some c' ∧
          c'.curation_status = mappedStatus body.decision_type) := by
  rw [submitDecision_success now db body cur hpid hcur hdec hfound]
  constructor
  · exact ⟨mkAudit body cur.curation_status (mappedStatus body.decision_type),
      commitState_decisions now db body _ _, rfl, rfl, rfl, rfl, rfl⟩
  · intro hskip
    refine ⟨applyUpdate now body (mappedStatus body.decision_type) cur, ?_, rfl⟩
    rw [commitState_candidates now db body _ _ hskip]
    exact find?_map_update _ _ (fun a => by rw [applyUpdate_protein_id]) db.candidates cur
      hfound

/-- A one-candidate database used by concrete test cases. -/
def candP1 : Candidate where
  protein_id := "P1"
  curation_status := "pending"
  is_novel_fold := none
  ecod_x_group := none
  ecod_h_group := none
  ecod_t_group := none
  ecod_f_group := none
  classified_at := none
  reviewed_at := none
  curator_notes := none
  has_structure := true
  priority_rank := some 5
  quality_score := none

/-- A second candidate with a better (lower) priority rank. -/
def candP2 : Candidate where
  protein_id := "P2"
  curation_status := "pending"
  is_novel_fold := none
  ecod_x_group := none
  ecod_h_group := none
  ecod_t_group := none
  ecod_f_group := none
  classified_at := none
  reviewed_at := none
  curator_notes := none
  has_structure := true
  priority_rank := some 2
  quality_score := none

/-- An `approve` request body for `P1` with no optional fields. -/
def approveReqP1 : Req where
  protein_id := "P1"
  curator := "alice"
  decision_type := "approve"
  ecod_x_group := none
  ecod_h_group := none
  ecod_t_group := none
  ecod_f_group := none
  is_novel_fold := none
  is_novel_topology := none
  confidence_level := none
  notes := none

/-- Witness for C1: the audit-completeness theorem applied to a concrete
one-candidate database and an `approve` decision. -/
theorem submitDecision_audit_complete_witness :
    approveReqP1.protein_id ≠ "" ∧ approveReqP1.curator ≠ "" ∧
    approveReqP1.decision_type ∈ VALID_DECISIONS ∧
    (DB.mk [candP1] []).candidates.find?
        (fun c => c.protein_id == approveReqP1.protein_id) = some candP1 ∧
    ((∃ d : Decision,
        (submitDecision 7 (DB.mk [candP1] []) approveReqP1).2.decisions = [] ++ [d] ∧
        d.protein_id = approveReqP1.protein_id ∧
        d.curator_name = approveReqP1.curator ∧
        d.decision_type = approveReqP1.decision_type ∧
        d.previous_status = candP1.curation_status ∧
        d.new_status = mappedStatus approveReqP1.decision_type) ∧
      (approveReqP1.decision_type ≠ "skip" →
        ∃ c' : Candidate,
          (submitDecision 7 (DB.mk [candP1] []) approveReqP1).2.candidates.find?
              (fun c => c.protein_id == approveReqP1.protein_id) = some c' ∧
          c'.curation_status = mappedStatus approveReqP1.decision_type)) :=
  ⟨by decide, by decide, by decide, by decide,
    submitDecision_audit_complete 7 (DB.mk [candP1] []) approveReqP1 candP1
      (by decide) (by decide) (by decide) (by decide)⟩

/-- C2: transactional atomicity of the decide route.  Whatever store failure
pattern is injected between the in-transaction status read and the commit,
the request leaves the database either untouched (validation failure,
candidate not found, or rollback) or in the fully committed state, which by
`commitState` carries both the audit row and (for non-skip) the candidate
mutation — no audit-without-mutation or mutation-without-audit state is
observable.  A missing candidate on an otherwise valid request is reported
as NotFound with the database untouched. -/
theorem submitDecision_atomic (fs : FailSpec) (now : Nat) (db : DB) (body : Req) :
    (((submitDecisionF fs now db body).2 = db ∧
        ∀ ns np, (submitDecisionF fs now db body).1 ≠ SubmitResult.ok ns np) ∨
      (∃ cur,
        db.candidates.find? (fun c => c.protein_id == body.protein_id) = some cur ∧
        (submitDecisionF fs now db body).2 =
          commitState now db body cur.curation_status (mappedStatus body.decision_type) ∧
        (submitDecisionF fs now db body).1 =
          SubmitResult.ok (mappedStatus body.decision_type)
            (nextProtein (submitDecisionF fs now db body).2 body.protein_id))) ∧
    (body.protein_id ≠ "" → body.curator ≠ "" →
      body.decision_type ∈ VALID_DECISIONS → fs.failSelect = false →
      db.candidates.find? (fun c => c.protein_id == body.protein_id) = none →
      (submitDecisionF fs now db body).1 = SubmitResult.notFound ∧
        (submitDecisionF fs now db body).2 = db) := by
  constructor
  · by_cases c1 : body.protein_id = ""
    · exact Or.inl ⟨by simp [submitDecisionF, c1], fun ns np => by simp [submitDecisionF, c1]⟩
    · by_cases c2 : body.curator = ""
      · exact Or.inl ⟨by simp [submitDecisionF, c1, c2],
          fun ns np => by simp [submitDecisionF, c1, c2]⟩
      · by_cases c3 : body.decision_type = "" ∨ body.decision_type ∉ VALID_DECISIONS
        · exact Or.inl ⟨by simp [submitDecisionF, c1, c2, c3],
            fun ns np => by simp [submitDecisionF, c1, c2, c3]⟩
        · by_cases c4 : fs.failSelect = true
          · exact Or.inl ⟨by simp [submitDecisionF, c1, c2, c3, c4],
              fun ns np => by simp [submitDecisionF, c1, c2, c3, c4]⟩
          · cases hfind : db.candidates.find? (fun c => c.protein_id == body.protein_id) with
            | none =>
              exact Or.inl ⟨by simp [submitDecisionF, c1, c2, c3, c4, hfind],
                fun ns np => by simp [submitDecisionF, c1, c2, c3, c4, hfind]⟩
            | some cur =>
              by_cases c5 : fs.failInsert = true
              · exact Or.inl ⟨by simp [submitDecisionF, c1, c2, c3, c4, hfind, c5],
                  fun ns np => by simp [submitDecisionF, c1, c2, c3, c4, hfind, c5]⟩
              · by_cases c6 : ¬body.decision_type = "skip" ∧ fs.failUpdate = true
                · exact Or.inl ⟨by simp [submitDecisionF, c1, c2, c3, c4, hfind, c5, c6],
                    fun ns np => by simp [submitDecisionF, c1, c2, c3, c4, hfind, c5, c6]⟩
                · by_cases c7 : fs.failNext = true
                  · exact Or.inl
                      ⟨by simp [submitDecisionF, c1, c2, c3, c4, hfind, c5, c6, c7],
                        fun ns np => by
                          simp [submitDecisionF, c1, c2, c3, c4, hfind, c5, c6, c7]⟩
                  · by_cases c8 : fs.failCommit = true
                    · exact Or.inl
                        ⟨by simp [submitDecisionF, c1, c2, c3, c4, hfind, c5, c6, c7, c8],
                          fun ns np => by
                            simp [submitDecisionF, c1, c2, c3, c4, hfind, c5, c6, c7, c8]⟩
                    · refine Or.inr ⟨cur, rfl, ?_, ?_⟩
                      all_goals
                        simp [submitDecisionF, c1, c2, c3, c4, hfind, c5, c6, c7, c8]
  · intro hpid hcur hdec h1 hfind
    have hne : body.decision_type ≠ "" := by
      intro h
      rw [h] at hdec
      simp [VALID_DECISIONS] at hdec
    have hcont : VALID_DECISIONS.contains body.decision_type = true :=
      List.elem_eq_true_of_mem hdec
    simp [submitDecisionF, hpid, hcur, hne, hcont, hdec, h1, hfind]

/-- A failure pattern that makes the audit insert throw. -/
def failInsertSpec : FailSpec := ⟨false, true, false, false, false⟩

/-- Witness for C2: the atomicity theorem applied to a concrete database and
request with a failure injected at the audit insert. -/
theorem submitDecision_atomic_witness :
    (((submitDecisionF failInsertSpec 7 (DB.mk [candP1] []) approveReqP1).2 =
          DB.mk [candP1] [] ∧
        ∀ ns np, (submitDecisionF failInsertSpec 7 (DB.mk [candP1] []) approveReqP1).1 ≠
          SubmitResult.ok ns np) ∨
      (∃ cur,
        (DB.mk [candP1] []).candidates.find?
            (fun c => c.protein_id == approveReqP1.protein_id) = some cur ∧
        (submitDecisionF failInsertSpec 7 (DB.mk [candP1] []) approveReqP1).2 =
          commitState 7 (DB.mk [candP1] []) approveReqP1 cur.curation_status
            (mappedStatus approveReqP1.decision_type) ∧
        (submitDecisionF failInsertSpec 7 (DB.mk [candP1] []) approveReqP1).1 =
          SubmitResult.ok (mappedStatus approveReqP1.decision_type)
            (nextProtein (submitDecisionF failInsertSpec 7 (DB.mk [candP1] []) approveReqP1).2
              approveReqP1.protein_id))) ∧
    (approveReqP1.protein_id ≠ "" → approveReqP1.curator ≠ "" →
      approveReqP1.decision_type ∈ VALID_DECISIONS → failInsertSpec.failSelect = false →
      (DB.mk [candP1] []).candidates.find?
          (fun c => c.protein_id == approveReqP1.protein_id) = none →
      (submitDecisionF failInsertSpec 7 (DB.mk [candP1] []) approveReqP1).1 =
          SubmitResult.notFound ∧
        (submitDecisionF failInsertSpec 7 (DB.mk [candP1] []) approveReqP1).2 =
          DB.mk [candP1] []) :=
  submitDecision_atomic failInsertSpec 7 (DB.mk [candP1] []) approveReqP1

/-- C3: transition-table totality and determinism: for an existing candidate
and any valid decision type, the returned status is the fixed table image of
the decision type alone (approve/classify/flag_novel yield classified, defer
yields deferred, reject yields rejected, skip yields pending), with no
dependency on the candidate row beyond its existence; a `flag_novel`
decision forces the candidate's `is_novel_fold` to true, and a resulting
`classified` status stamps the `classified_at` timestamp. -/
theorem submitDecision_transition (now : Nat) (db : DB) (body : Req) (cur : Candidate)
    (hpid : body.protein_id ≠ "") (hcur : body.curator ≠ "")
    (hdec : body.decision_type ∈ VALID_DECISIONS)
    (hfound : db.candidates.find? (fun c => c.protein_id == body.protein_id) = some cur) :
    ((submitDecision now db body).1 =
      SubmitResult.ok (mappedStatus body.decision_type)
        (nextProtein (submitDecision now db body).2 body.protein_id)) ∧
    (mappedStatus "approve" = "classified" ∧ mappedStatus "classify" = "classified" ∧
      mappedStatus "flag_novel" = "classified" ∧ mappedStatus "defer" = "deferred" ∧
      mappedStatus "reject" = "rejected" ∧ mappedStatus "skip" = "pending") ∧
    (body.decision_type = "flag_novel" →
      ∃ c', (submitDecision now db body).2.candidates.find?
          (fun c => c.protein_id == body.protein_id) = some c' ∧
        c'.is_novel_fold = some true) ∧
    (mappedStatus body.decision_type = "classified" →
      ∃ c', (submitDecision now db body).2.candidates.find?
          (fun c => c.protein_id == body.protein_id) = some c' ∧
        c'.classified_at = some now) := by
  rw [submitDecision_success now db body cur hpid hcur hdec hfound]
  refine ⟨rfl, ⟨rfl, rfl, rfl, rfl, rfl, rfl⟩, ?_, ?_⟩
  · intro hfn
    have hskip : body.decision_type ≠ "skip" := by rw [hfn]; decide
    refine ⟨applyUpdate now body (mappedStatus body.decision_type) cur, ?_, ?_⟩
    · rw [commitState_candidates now db body _ _ hskip]
      exact find?_map_update _ _ (fun a => by rw [applyUpdate_protein_id]) db.candidates
        cur hfound
    · simp [applyUpdate, hfn]
  · intro hcl
    have hskip : body.decision_type ≠ "skip" := by
      intro h
      rw [h] at hcl
      simp [mappedStatus, DECISION_TO_STATUS] at hcl
    refine ⟨applyUpdate now body (mappedStatus body.decision_type) cur, ?_, ?_⟩
    · rw [commitState_candidates now db body _ _ hskip]
      exact find?_map_update _ _ (fun a => by rw [applyUpdate_protein_id]) db.candidates
        cur hfound
    · simp [applyUpdate, hcl]

/-- A `flag_novel` request body for `P1`. -/
def flagNovelReqP1 : Req :=
  { approveReqP1 with decision_type := "flag_novel" }

/-- Witness for C3: the transition theorem applied to the concrete
one-candidate database and a `flag_novel` decision. -/
theorem submitDecision_transition_witness :
    flagNovelReqP1.protein_id ≠ "" ∧ flagNovelReqP1.curator ≠ "" ∧
    flagNovelReqP1.decision_type ∈ VALID_DECISIONS ∧
    (DB.mk [candP1] []).candidates.find?
        (fun c => c.protein_id == flagNovelReqP1.protein_id) = some candP1 ∧
    (((submitDecision 7 (DB.mk [candP1] []) flagNovelReqP1).1 =
        SubmitResult.ok (mappedStatus flagNovelReqP1.decision_type)
          (nextProtein (submitDecision 7 (DB.mk [candP1] []) flagNovelReqP1).2
            flagNovelReqP1.protein_id)) ∧
      (mappedStatus "approve" = "classified" ∧ mappedStatus "classify" = "classified" ∧
        mappedStatus "flag_novel" = "classified" ∧ mappedStatus "defer" = "deferred" ∧
        mappedStatus "reject" = "rejected" ∧ mappedStatus "skip" = "pending") ∧
      (flagNovelReqP1.decision_type = "flag_novel" →
        ∃ c', (submitDecision 7 (DB.mk [candP1] []) flagNovelReqP1).2.candidates.find?
            (fun c => c.protein_id == flagNovelReqP1.protein_id) = some c' ∧
          c'.is_novel_fold = some true) ∧
      (mappedStatus flagNovelReqP1.decision_type = "classified" →
        ∃ c', (submitDecision 7 (DB.mk [candP1] []) flagNovelReqP1).2.candidates.find?
            (fun c => c.protein_id == flagNovelReqP1.protein_id) = some c' ∧
          c'.classified_at = some 7)) :=
  ⟨by decide, by decide, by decide, by decide,
    submitDecision_transition 7 (DB.mk [candP1] []) flagNovelReqP1 candP1
      (by decide) (by decide) (by decide) (by decide)⟩

theorem submitDecision_skip_step (now : Nat) (db : DB) (body : Req) (cur : Candidate)
    (hskip : body.decision_type = "skip") (hpid : body.protein_id ≠ "")
    (hcur : body.curator ≠ "")
    (hfound : db.candidates.find? (fun c => c.protein_id == body.protein_id) = some cur) :
    (submitDecision now db body).2.candidates = db.candidates ∧
    (submitDecision now db body).2.decisions =
      db.decisions ++ [mkAudit body cur.curation_status "pending"] ∧
    (submitDecision now db body).1 =
      SubmitResult.ok "pending"
        (nextProtein (submitDecision now db body).2 body.protein_id) := by
  have hdec : body.decision_type ∈ VALID_DECISIONS := by
    rw [hskip]; simp [VALID_DECISIONS]
  have hms : mappedStatus body.decision_type = "pending" := by rw [hskip]; rfl
  rw [submitDecision_success now db body cur hpid hcur hdec hfound]
  rw [hms]
  exact ⟨commitState_candidates_skip now db body _ _ hskip,
    commitState_decisions now db body _ _, rfl⟩

/-- C6: skip idempotence on status: any number of `skip` decisions on an
existing candidate leaves the candidate table literally unchanged (so
`curation_status` never changes and `classified_at` is never set), each call
returns `new_status = "pending"`, and the audit log grows by exactly one row
per call. -/
theorem submitDecision_skip_idempotent (now : Nat) (db : DB) (body : Req)
    (cur : Candidate)
    (hskip : body.decision_type = "skip") (hpid : body.protein_id ≠ "")
    (hcur : body.curator ≠ "")
    (hfound : db.candidates.find? (fun c => c.protein_id == body.protein_id) = some cur) :
    ∀ n : Nat,
      (iterateSubmit now body db n).candidates = db.candidates ∧
      (iterateSubmit now body db n).decisions.length = db.decisions.length + n ∧
      (submitDecision now (iterateSubmit now body db n) body).1 =
        SubmitResult.ok "pending"
          (nextProtein (submitDecision now (iterateSubmit now body db n) body).2
            body.protein_id) := by
  intro n
  induction n with
  | zero =>
    exact ⟨rfl, rfl, (submitDecision_skip_step now db body cur hskip hpid hcur hfound).2.2⟩
  | succ n ih =>
    have hfound' :
        (iterateSubmit now body db n).candidates.find?
          (fun c => c.protein_id == body.protein_id) = some cur := by
      rw [ih.1]; exact hfound
    have step := submitDecision_skip_step now (iterateSubmit now body db n) body cur hskip
      hpid hcur hfound'
    have hcand : (iterateSubmit now body db (n + 1)).candidates = db.candidates := by
      show (submitDecision now (iterateSubmit now body db n) body).2.candidates = _
      rw [step.1, ih.1]
    have hfound'' :
        (iterateSubmit now body db (n + 1)).candidates.find?
          (fun c => c.protein_id == body.protein_id) = some cur := by
      rw [hcand]; exact hfound
    refine ⟨hcand, ?_, (submitDecision_skip_step now (iterateSubmit now body db (n + 1))
      body cur hskip hpid hcur hfound'').2.2⟩
    show (submitDecision now (iterateSubmit now body db n) body).2.decisions.length = _
    rw [step.2.1]
    simp [ih.2.1]
    omega

/-- A `skip` request body for `P1`. -/
def skipReqP1 : Req :=
  { approveReqP1 with decision_type := "skip" }

/-- Witness for C6: the skip-idempotence theorem applied to the concrete
one-candidate database, instantiated at three successive calls. -/
theorem submitDecision_skip_idempotent_witness :
    skipReqP1.decision_type = "skip" ∧ skipReqP1.protein_id ≠ "" ∧
    skipReqP1.curator ≠ "" ∧
    (DB.mk [candP1] []).candidates.find?
        (fun c => c.protein_id == skipReqP1.protein_id) = some candP1 ∧
    ((iterateSubmit 7 skipReqP1 (DB.mk [candP1] []) 3).candidates =
        (DB.mk [candP1] []).candidates ∧
      (iterateSubmit 7 skipReqP1 (DB.mk [candP1] []) 3).decisions.length =
        ([] : List Decision).length + 3 ∧
      (submitDecision 7 (iterateSubmit 7 skipReqP1 (DB.mk [candP1] []) 3) skipReqP1).1 =
        SubmitResult.ok "pending"
          (nextProtein
            (submitDecision 7 (iterateSubmit 7 skipReqP1 (DB.mk [candP1] []) 3)
              skipReqP1).2 skipReqP1.protein_id)) :=
  ⟨by decide, by decide, by decide, by decide,
    submitDecision_skip_idempotent 7 (DB.mk [candP1] []) skipReqP1 candP1
      (by decide) (by decide) (by decide) (by decide) 3⟩

theorem rankLe_refl (a : Option Int) : rankLe a a = true := by
  rcases a with _ | x <;> simp [rankLe]

theorem rankLe_trans (a b c : Option Int) (hab : rankLe a b = true)
    (hbc : rankLe b c = true) : rankLe a c = true := by
  rcases a with _ | x <;> rcases b with _ | y <;> rcases c with _ | z <;>
    simp [rankLe] at *
  omega

theorem queueBefore_rankLe (a b : Candidate) (h : queueBefore a b = true) :
    rankLe a.priority_rank b.priority_rank = true := by
  unfold queueBefore at h
  rcases ha : a.priority_rank with _ | x <;> rcases hb : b.priority_rank with _ | y <;>
    rw [ha, hb] at h <;> simp [rankLe] at h ⊢
  rcases h with h | ⟨h, _⟩ <;> omega

theorem not_queueBefore_rankLe (a b : Candidate) (h : queueBefore a b = false) :
    rankLe b.priority_rank a.priority_rank = true := by
  unfold queueBefore at h
  rcases ha : a.priority_rank with _ | x <;> rcases hb : b.priority_rank with _ | y <;>
    rw [ha, hb] at h <;> simp [rankLe] at h ⊢
  omega

theorem foldl_pick_spec (l : List Candidate) (b : Candidate) :
    (l.foldl (fun b c => if queueBefore c b then c else b) b = b ∨
      l.foldl (fun b c => if queueBefore c b then c else b) b ∈ l) ∧
    rankLe (l.foldl (fun b c => if queueBefore c b then c else b) b).priority_rank
        b.priority_rank = true ∧
    ∀ c ∈ l,
      rankLe (l.foldl (fun b c => if queueBefore c b then c else b) b).priority_rank
        c.priority_rank = true := by
  induction l generalizing b with
  | nil => exact ⟨Or.inl rfl, rankLe_refl _, by simp⟩
  | cons a l ih =>
    simp only [List.foldl_cons]
    by_cases h : queueBefore a b = true
    · rw [if_pos h]
      obtain ⟨hmem, hle, hall⟩ := ih a
      refine ⟨?_, rankLe_trans _ _ _ hle (queueBefore_rankLe a b h), ?_⟩
      · rcases hmem with h' | h'
        · rw [h']; exact Or.inr (List.mem_cons_self a l)
        · exact Or.inr (List.mem_cons_of_mem a h')
      · intro c hc
        rcases List.mem_cons.mp hc with rfl | hc
        · exact hle
        · exact hall c hc
    · rw [if_neg h]
      obtain ⟨hmem, hle, hall⟩ := ih b
      refine ⟨hmem.imp id (List.mem_cons_of_mem a), hle, ?_⟩
      intro c hc
      rcases List.mem_cons.mp hc with rfl | hc
      · exact rankLe_trans _ _ _ hle
          (not_queueBefore_rankLe c b (Bool.eq_false_iff.mpr h))
      · exact hall c hc

theorem pickBest_eq_none (l : List Candidate) : pickBest l = none ↔ l = [] := by
  cases l <;> simp [pickBest]

theorem pickBest_spec (l : List Candidate) (b : Candidate) (h : pickBest l = some b) :
    b ∈ l ∧ ∀ c ∈ l, rankLe b.priority_rank c.priority_rank = true := by
  cases l with
  | nil => simp [pickBest] at h
  | cons a l =>
    simp only [pickBest] at h
    injection h with h
    subst h
    obtain ⟨hmem, hle, hall⟩ := foldl_pick_spec l a
    constructor
    · rcases hmem with h' | h'
      · rw [h']; exact List.mem_cons_self a l
      · exact List.mem_cons_of_mem a h'
    · intro c hc
      rcases List.mem_cons.mp hc with rfl | hc
      · exact hle
      · exact hall c hc

theorem nextProtein_spec (db : DB) (pid : String) :
    (nextProtein db pid = none ↔
      ∀ c ∈ db.candidates, eligibleNext pid c = false) ∧
    ∀ q, nextProtein db pid = some q →
      ∃ c ∈ db.candidates, eligibleNext pid c = true ∧ c.protein_id = q ∧
        ∀ c' ∈ db.candidates, eligibleNext pid c' = true →
          rankLe c.priority_rank c'.priority_rank = true := by
  constructor
  · rw [nextProtein, Option.map_eq_none', pickBest_eq_none, List.filter_eq_nil_iff]
    constructor
    · intro h c hc
      exact Bool.eq_false_iff.mpr (h c hc)
    · intro h c hc
      exact Bool.eq_false_iff.mp (h c hc)
  · intro q hq
    rw [nextProtein] at hq
    rcases Option.map_eq_some'.mp hq with ⟨c, hc, rfl⟩
    obtain ⟨hmem, hall⟩ := pickBest_spec _ c hc
    rw [List.mem_filter] at hmem
    exact ⟨c, hmem.1, hmem.2, rfl,
      fun c' hc' he => hall c' (List.mem_filter.mpr ⟨hc', he⟩)⟩

/-- C5: queue advancement: a successful `submitDecision` returns the result
of the next-protein query on the post-transaction state; that id is never the
just-processed protein, is `none` exactly when no other pending candidate
with a structure exists, and otherwise names a pending candidate with a
structure whose `priority_rank` is minimal (ascending, nulls last) among all
such candidates excluding the just-processed protein.  Only the processed
row differs between the pre- and post-transaction states, and it is excluded,
so the eligible set is the same in both. -/
theorem submitDecision_queue (now : Nat) (db : DB) (body : Req) (cur : Candidate)
    (hpid : body.protein_id ≠ "") (hcur : body.curator ≠ "")
    (hdec : body.decision_type ∈ VALID_DECISIONS)
    (hfound : db.candidates.find? (fun c => c.protein_id == body.protein_id) = some cur) :
    ((submitDecision now db body).1 =
      SubmitResult.ok (mappedStatus body.decision_type)
        (nextProtein (submitDecision now db body).2 body.protein_id)) ∧
    nextProtein (submitDecision now db body).2 body.protein_id ≠
      some body.protein_id ∧
    (nextProtein (submitDecision now db body).2 body.protein_id = none ↔
      ∀ c ∈ (submitDecision now db body).2.candidates,
        eligibleNext body.protein_id c = false) ∧
    (∀ q, nextProtein (submitDecision now db body).2 body.protein_id = some q →
      ∃ c ∈ (submitDecision now db body).2.candidates,
        c.protein_id = q ∧ c.curation_status = "pending" ∧
        c.has_structure = true ∧ c.protein_id ≠ body.protein_id ∧
        ∀ c' ∈ (submitDecision now db body).2.candidates,
          eligibleNext body.protein_id c' = true →
          rankLe c.priority_rank c'.priority_rank = true) := by
  obtain ⟨hnone, hsome⟩ := nextProtein_spec (submitDecision now db body).2 body.protein_id
  refine ⟨?_, ?_, hnone, ?_⟩
  · rw [submitDecision_success now db body cur hpid hcur hdec hfound]
  · intro heq
    rcases hsome body.protein_id heq with ⟨c, _, he, hid, _⟩
    simp [eligibleNext, hid] at he
  · intro q hq
    rcases hsome q hq with ⟨c, hc, he, hid, hall⟩
    have he' := he
    simp only [eligibleNext, Bool.and_eq_true, beq_iff_eq, Bool.not_eq_eq_eq_not,
      Bool.not_true, decide_eq_false_iff_not] at he'
    refine ⟨c, hc, hid, ?_, ?_, ?_, hall⟩
    · exact he'.1.1
    · exact he'.1.2
    · intro h
      have : (c.protein_id == body.protein_id) = true := by simp [h]
      simp [eligibleNext, this] at he


/-- The two-candidate database of the end-to-end queue scenario. -/
def dbP1P2 : DB := DB.mk [candP1, candP2] []

/-- Witness for C5: the queue theorem applied to the scenario with `P1`
(pending, rank 5) and `P2` (pending, rank 2), both with structures:
approving `P1` returns `P2` as the next protein. -/
theorem submitDecision_queue_witness :
    approveReqP1.protein_id ≠ "" ∧ approveReqP1.curator ≠ "" ∧
    approveReqP1.decision_type ∈ VALID_DECISIONS ∧
    dbP1P2.candidates.find?
        (fun c => c.protein_id == approveReqP1.protein_id) = some candP1 ∧
    nextProtein (submitDecision 7 dbP1P2 approveReqP1).2 approveReqP1.protein_id =
      some "P2" ∧
    (((submitDecision 7 dbP1P2 approveReqP1).1 =
        SubmitResult.ok (mappedStatus approveReqP1.decision_type)
          (nextProtein (submitDecision 7 dbP1P2 approveReqP1).2
            approveReqP1.protein_id)) ∧
      nextProtein (submitDecision 7 dbP1P2 approveReqP1).2 approveReqP1.protein_id ≠
        some approveReqP1.protein_id ∧
      (nextProtein (submitDecision 7 dbP1P2 approveReqP1).2 approveReqP1.protein_id =
          none ↔
        ∀ c ∈ (submitDecision 7 dbP1P2 approveReqP1).2.candidates,
          eligibleNext approveReqP1.protein_id c = false) ∧
      (∀ q, nextProtein (submitDecision 7 dbP1P2 approveReqP1).2
            approveReqP1.protein_id = some q →
        ∃ c ∈ (submitDecision 7 dbP1P2 approveReqP1).2.candidates,
          c.protein_id = q ∧ c.curation_status = "pending" ∧
          c.has_structure = true ∧ c.protein_id ≠ approveReqP1.protein_id ∧
          ∀ c' ∈ (submitDecision 7 dbP1P2 approveReqP1).2.candidates,
            eligibleNext approveReqP1.protein_id c' = true →
            rankLe c.priority_rank c'.priority_rank = true)) :=
  ⟨by decide, by decide, by decide, by decide, by decide,
    submitDecision_queue 7 dbP1P2 approveReqP1 candP1
      (by decide) (by decide) (by decide) (by decide)⟩

theorem avgOrNull_eq_none_iff (vals : List ℚ) : avgOrNull vals = none ↔ vals = [] := by
  rw [avgOrNull, ← List.length_eq_zero]
  by_cases h : vals.length = 0 <;> simp [h]

theorem avgOrNull_eq_some (vals : List ℚ) (q : ℚ) (h : avgOrNull vals = some q) :
    q = vals.sum / vals.length := by
  rw [avgOrNull] at h
  by_cases h0 : vals.length = 0
  · rw [if_pos h0] at h
    cases h
  · rw [if_neg h0] at h
    injection h with h
    exact h.symm

/-- C7: Tier-2 cluster summary correctness on any cluster with at least one
member row: `cross_phylum` holds iff the members span strictly more than one
distinct (truthy) phylum; the three averages skip null values and are null
(never 0) when every member's value is null; `protein_count` is the number
of distinct owning proteins; `domain_count` is the member row count. -/
theorem tier2Summary_correct (tbl : List DomainClusterRow) (cid : String)
    (hne : tbl.filter (·.cluster_id == cid) ≠ []) :
    ∃ s, handleTier2Summary tbl cid = some s ∧
      (s.cross_phylum = true ↔
        1 < (truthyVals ((tbl.filter (·.cluster_id == cid)).map (·.phylum))).toFinset.card) ∧
      (s.avg_plddt = none ↔
        (tbl.filter (·.cluster_id == cid)).filterMap (·.mean_plddt) = []) ∧
      (∀ q, s.avg_plddt = some q →
        q = ((tbl.filter (·.cluster_id == cid)).filterMap (·.mean_plddt)).sum /
          ((tbl.filter (·.cluster_id == cid)).filterMap (·.mean_plddt)).length) ∧
      (s.avg_dpam_prob = none ↔
        (tbl.filter (·.cluster_id == cid)).filterMap (·.dpam_prob) = []) ∧
      (∀ q, s.avg_dpam_prob = some q →
        q = ((tbl.filter (·.cluster_id == cid)).filterMap (·.dpam_prob)).sum /
          ((tbl.filter (·.cluster_id == cid)).filterMap (·.dpam_prob)).length) ∧
      (s.avg_dali_zscore = none ↔
        (tbl.filter (·.cluster_id == cid)).filterMap (·.dali_zscore) = []) ∧
      (∀ q, s.avg_dali_zscore = some q →
        q = ((tbl.filter (·.cluster_id == cid)).filterMap (·.dali_zscore)).sum /
          ((tbl.filter (·.cluster_id == cid)).filterMap (·.dali_zscore)).length) ∧
      s.protein_count =
        ((tbl.filter (·.cluster_id == cid)).map (·.protein_id)).toFinset.card ∧
      s.domain_count = (tbl.filter (·.cluster_id == cid)).length := by
  refine ⟨tier2Summary cid (tbl.filter (·.cluster_id == cid)), ?_, ?_, ?_, ?_, ?_, ?_,
    ?_, ?_, ?_, rfl⟩
  · simp [handleTier2Summary, List.isEmpty_iff, hne]
  · simp [tier2Summary, List.card_toFinset]
  · exact avgOrNull_eq_none_iff _
  · exact fun q h => avgOrNull_eq_some _ q h
  · exact avgOrNull_eq_none_iff _
  · exact fun q h => avgOrNull_eq_some _ q h
  · exact avgOrNull_eq_none_iff _
  · exact fun q h => avgOrNull_eq_some _ q h
  · simp [tier2Summary, List.card_toFinset]

/-- Member rows of a concrete Tier-2 cluster with mixed null and non-null
scores, two distinct proteins and two distinct phyla, plus a row of an
unrelated cluster. -/
def domTblC7 : List DomainClusterRow :=
  [⟨"Q1", 1, "Q1_1", some "1-50", "T2_C1", 3, none, none, some 90,
      some "Euryarchaeota", some "G1"⟩,
   ⟨"Q1", 2, "Q1_2", some "60-120", "T2_C1", 3, some 1, some 5, none,
      some "Thaumarchaeota", some "G1"⟩,
   ⟨"Q2", 1, "Q2_1", none, "T2_C1", 3, none, none, some 80,
      some "Euryarchaeota", some "G2"⟩,
   ⟨"Q9", 1, "Q9_1", none, "T2_C9", 1, none, none, none, none, none⟩]

/-- Witness for C7: the Tier-2 summary theorem applied to the concrete
cluster `T2_C1` of `domTblC7`. -/
theorem tier2Summary_correct_witness :
    domTblC7.filter (·.cluster_id == "T2_C1") ≠ [] ∧
    (∃ s, handleTier2Summary domTblC7 "T2_C1" = some s ∧
      (s.cross_phylum = true ↔
        1 < (truthyVals ((domTblC7.filter (·.cluster_id == "T2_C1")).map
          (·.phylum))).toFinset.card) ∧
      (s.avg_plddt = none ↔
        (domTblC7.filter (·.cluster_id == "T2_C1")).filterMap (·.mean_plddt) = []) ∧
      (∀ q, s.avg_plddt = some q →
        q = ((domTblC7.filter (·.cluster_id == "T2_C1")).filterMap (·.mean_plddt)).sum /
          ((domTblC7.filter (·.cluster_id == "T2_C1")).filterMap (·.mean_plddt)).length) ∧
      (s.avg_dpam_prob = none ↔
        (domTblC7.filter (·.cluster_id == "T2_C1")).filterMap (·.dpam_prob) = []) ∧
      (∀ q, s.avg_dpam_prob = some q →
        q = ((domTblC7.filter (·.cluster_id == "T2_C1")).filterMap (·.dpam_prob)).sum /
          ((domTblC7.filter (·.cluster_id == "T2_C1")).filterMap (·.dpam_prob)).length) ∧
      (s.avg_dali_zscore = none ↔
        (domTblC7.filter (·.cluster_id == "T2_C1")).filterMap (·.dali_zscore) = []) ∧
      (∀ q, s.avg_dali_zscore = some q →
        q = ((domTblC7.filter (·.cluster_id == "T2_C1")).filterMap (·.dali_zscore)).sum /
          ((domTblC7.filter (·.cluster_id == "T2_C1")).filterMap (·.dali_zscore)).length) ∧
      s.protein_count =
        ((domTblC7.filter (·.cluster_id == "T2_C1")).map (·.protein_id)).toFinset.card ∧
      s.domain_count = (domTblC7.filter (·.cluster_id == "T2_C1")).length) :=
  ⟨by decide, tier2Summary_correct domTblC7 "T2_C1" (by decide)⟩

/-- C8: a well-formed cluster id (`T1_C...` or `T2_C...`) with zero
membership rows yields NotFound from the detail route — both the Tier-1
summary view lookup and the Tier-2 inline summary report no cluster rather
than an empty-but-successful summary. -/
theorem clusterDetail_notFound (foldTbl : List FoldClusterRow)
    (domTbl : List DomainClusterRow) (cid : String)
    (hvalid : validClusterId cid = true)
    (hfold : foldTbl.filter (·.cluster_id == cid) = [])
    (hdom : domTbl.filter (·.cluster_id == cid) = []) :
    getClusterDetail foldTbl domTbl cid = DetailResult.notFoundR ∧
    summaryView foldTbl cid = none ∧
    handleTier2Summary domTbl cid = none := by
  have h1 : summaryView foldTbl cid = none := by simp [summaryView, hfold]
  have h2 : handleTier2Summary domTbl cid = none := by simp [handleTier2Summary, hdom]
  refine ⟨?_, h1, h2⟩
  by_cases hp : List.IsPrefix "T1_".toList cid.toList <;>
    simp only [String.toList] at hp <;>
    simp [getClusterDetail, hvalid, hp, h1, h2]

/-- Witness for C8: the NotFound theorem applied to the stale cluster id
`T2_C42`, absent from both membership tables. -/
theorem clusterDetail_notFound_witness :
    validClusterId "T2_C42" = true ∧
    ([] : List FoldClusterRow).filter (·.cluster_id == "T2_C42") = [] ∧
    domTblC7.filter (·.cluster_id == "T2_C42") = [] ∧
    (getClusterDetail [] domTblC7 "T2_C42" = DetailResult.notFoundR ∧
      summaryView [] "T2_C42" = none ∧
      handleTier2Summary domTblC7 "T2_C42" = none) :=
  ⟨by decide, by decide, by decide,
    clusterDetail_notFound [] domTblC7 "T2_C42" (by decide) (by decide) (by decide)⟩

theorem ilikeSub_eq_true_iff (v : Option String) (p : String) :
    ilikeSub v p = true ↔ ∃ s, v = some s ∧
      List.IsInfix (p.toList.map Char.toLower) (s.toList.map Char.toLower) := by
  cases v <;> simp [ilikeSub]

/-- C9: the Tier-2 phylum filter is evaluated against raw per-row phylum
values before aggregation: a cluster id appears in the filtered listing
exactly when some member row's raw phylum value contains the filter
substring (case-insensitively, per `ILIKE`), and for an included cluster the
grouped rows are all of that cluster's member rows — not just the matching
ones — so the aggregates are unaffected by the filter. -/
theorem tier2_phylum_filter_raw (tbl : List DomainClusterRow) (p cid : String) :
    (cid ∈ tier2ListClusterIds tbl 1 (some p) ↔
      ∃ r ∈ tbl, r.cluster_id = cid ∧ ∃ s, r.phylum = some s ∧
        List.IsInfix (p.toList.map Char.toLower) (s.toList.map Char.toLower)) ∧
    (cid ∈ tier2ListClusterIds tbl 1 (some p) →
      (tbl.filter (tier2RowCond tbl 1 (some p))).filter (·.cluster_id == cid) =
        tbl.filter (·.cluster_id == cid)) := by
  have hcond : ∀ r : DomainClusterRow, tier2RowCond tbl 1 (some p) r = true ↔
      ∃ q ∈ tbl, q.cluster_id = r.cluster_id ∧ ilikeSub q.phylum p = true := by
    intro r
    simp [tier2RowCond, List.any_eq_true]
  constructor
  · rw [tier2ListClusterIds]
    rw [List.mem_dedup]
    constructor
    · intro h
      rcases List.mem_map.mp h with ⟨r, hr, hid⟩
      rcases List.mem_filter.mp hr with ⟨hrtbl, hrc⟩
      rcases (hcond r).mp hrc with ⟨q, hqtbl, hqid, hilike⟩
      rcases (ilikeSub_eq_true_iff q.phylum p).mp hilike with ⟨s, hs, hinf⟩
      exact ⟨q, hqtbl, by rw [hqid, hid], s, hs, hinf⟩
    · rintro ⟨r, hrtbl, hrid, s, hs, hinf⟩
      refine List.mem_map.mpr ⟨r, List.mem_filter.mpr ⟨hrtbl, ?_⟩, hrid⟩
      exact (hcond r).mpr ⟨r, hrtbl, rfl,
        (ilikeSub_eq_true_iff r.phylum p).mpr ⟨s, hs, hinf⟩⟩
  · intro h
    rw [tier2ListClusterIds, List.mem_dedup] at h
    rcases List.mem_map.mp h with ⟨r0, hr0, hid0⟩
    rcases List.mem_filter.mp hr0 with ⟨hr0tbl, hr0c⟩
    rcases (hcond r0).mp hr0c with ⟨q, hqtbl, hqid, hilike⟩
    rw [List.filter_comm, List.filter_eq_self]
    intro a ha
    rcases List.mem_filter.mp ha with ⟨hatbl, hac⟩
    refine (hcond a).mpr ⟨q, hqtbl, ?_, hilike⟩
    rw [hqid, hid0, beq_iff_eq.mp hac]

/-- Witness for C9: the raw-row filter theorem applied to `domTblC7` and the
needle `"thaum"`, which matches the raw member value `"Thaumarchaeota"` of
cluster `T2_C1` case-insensitively (while the unrelated cluster `T2_C9` is
excluded). -/
theorem tier2_phylum_filter_raw_witness :
    ((("T2_C1" : String) ∈ tier2ListClusterIds domTblC7 1 (some "thaum") ↔
      ∃ r ∈ domTblC7, r.cluster_id = "T2_C1" ∧ ∃ s, r.phylum = some s ∧
        List.IsInfix ("thaum".toList.map Char.toLower)
          (s.toList.map Char.toLower)) ∧
    (("T2_C1" : String) ∈ tier2ListClusterIds domTblC7 1 (some "thaum") →
      (domTblC7.filter (tier2RowCond domTblC7 1 (some "thaum"))).filter
          (·.cluster_id == "T2_C1") =
        domTblC7.filter (·.cluster_id == "T2_C1"))) ∧
    ("T2_C1" : String) ∈ tier2ListClusterIds domTblC7 1 (some "thaum") ∧
    ("T2_C9" : String) ∉ tier2ListClusterIds domTblC7 1 (some "thaum") :=
  ⟨tier2_phylum_filter_raw domTblC7 "thaum" "T2_C1", by decide, by decide⟩

/-- C10: truthiness in the response mappings: every numeric score field of
the cluster list and cluster detail response mappings whose row value is
exactly 0 is emitted as null, and null is also emitted as null — a stored 0
is indistinguishable from an absent value at the public interface. -/
theorem response_zero_becomes_null :
    jsNumOut (some 0) = jsNumOut none ∧
    (∀ c : Tier1Summary, c.avg_plddt = some 0 →
      (mapTier1SummaryResp c).avg_plddt = none) ∧
    (∀ c : Tier1Summary, c.min_plddt = some 0 →
      (mapTier1SummaryResp c).min_plddt = none) ∧
    (∀ c : Tier1Summary, c.max_plddt = some 0 →
      (mapTier1SummaryResp c).max_plddt = none) ∧
    (∀ c : Tier2ListItem, c.avg_plddt = some 0 →
      (mapTier2ListItemResp c).avg_plddt = none) ∧
    (∀ c : Tier2ListItem, c.min_plddt = some 0 →
      (mapTier2ListItemResp c).min_plddt = none) ∧
    (∀ c : Tier2ListItem, c.max_plddt = some 0 →
      (mapTier2ListItemResp c).max_plddt = none) ∧
    (∀ c : Tier2ListItem, c.avg_dpam_prob = some 0 →
      (mapTier2ListItemResp c).avg_dpam_prob = none) ∧
    (∀ m : FoldClusterRow, m.mean_plddt = some 0 →
      (mapT1MemberResp m).mean_plddt = none) ∧
    (∀ m : DomainClusterRow, m.mean_plddt = some 0 →
      (mapT2MemberResp m).mean_plddt = none) ∧
    (∀ m : DomainClusterRow, m.dpam_prob = some 0 →
      (mapT2MemberResp m).dpam_prob = none) ∧
    (∀ m : DomainClusterRow, m.dali_zscore = some 0 →
      (mapT2MemberResp m).dali_zscore = none) ∧
    (∀ e : EdgeT1, e.fident = some 0 → (mapT1EdgeResp e).fident = none) ∧
    (∀ e : EdgeT1, e.evalue = some 0 → (mapT1EdgeResp e).evalue = none) ∧
    (∀ e : EdgeT1, e.lddt = some 0 → (mapT1EdgeResp e).lddt = none) ∧
    (∀ e : EdgeT1, e.prob = some 0 → (mapT1EdgeResp e).prob = none) ∧
    (∀ e : EdgeT2, e.fident = some 0 → (mapT2EdgeResp e).fident = none) ∧
    (∀ e : EdgeT2, e.evalue = some 0 → (mapT2EdgeResp e).evalue = none) ∧
    (∀ e : EdgeT2, e.alntmscore = some 0 → (mapT2EdgeResp e).alntmscore = none) ∧
    (∀ e : EdgeT2, e.qtmscore = some 0 → (mapT2EdgeResp e).qtmscore = none) ∧
    (∀ e : EdgeT2, e.ttmscore = some 0 → (mapT2EdgeResp e).ttmscore = none) ∧
    (∀ r : EnrichedHitT1, r.fident = some 0 → (mapCrossHitResp r).fident = none) ∧
    (∀ r : EnrichedHitT1, r.evalue = some 0 → (mapCrossHitResp r).evalue = none) ∧
    (∀ r : EnrichedHitT1, r.alntmscore = some 0 →
      (mapCrossHitResp r).alntmscore = none) := by
  refine ⟨by simp [jsNumOut], ?_⟩
  and_intros <;>
    (intro x h
     simp [mapTier1SummaryResp, mapTier2ListItemResp, mapT1MemberResp, mapT2MemberResp,
       mapT1EdgeResp, mapT2EdgeResp, mapCrossHitResp, jsNumOut, h])

/-- A Tier-1 summary row whose pLDDT statistics are all stored as 0. -/
def t1sZero : Tier1Summary := ⟨"T1_C1", 1, false, 1, 1, some 0, some 0, some 0, []⟩

/-- A Tier-2 member row whose scores are all stored as 0. -/
def domRowZero : DomainClusterRow :=
  ⟨"Q1", 1, "Q1_1", none, "T2_C1", 1, some 0, some 0, some 0, none, none⟩

/-- Witness for C10: the truthiness theorem applied to rows storing exact
zeros. -/
theorem response_zero_becomes_null_witness :
    (mapTier1SummaryResp t1sZero).avg_plddt = none ∧
    (mapT2MemberResp domRowZero).mean_plddt = none ∧
    (mapT2MemberResp domRowZero).dpam_prob = none := by
  obtain ⟨-, h2, -, -, -, -, -, -, -, h10, h11, -⟩ := response_zero_becomes_null
  exact ⟨h2 t1sZero rfl, h10 domRowZero rfl, h11 domRowZero rfl⟩

theorem scoreDescLe_trans (a b c : Option ℚ) (hab : scoreDescLe a b = true)
    (hbc : scoreDescLe b c = true) : scoreDescLe a c = true := by
  rcases a with _ | x <;> rcases b with _ | y <;> rcases c with _ | z <;>
    simp [scoreDescLe] at *
  linarith

theorem scoreDescLe_total (a b : Option ℚ) :
    (scoreDescLe a b || scoreDescLe b a) = true := by
  rcases a with _ | x <;> rcases b with _ | y <;> simp [scoreDescLe]
  exact le_total y x

theorem tier1CrossTierHits_mem (hits : List CrossTierHit)
    (domTbl : List DomainClusterRow) (foldTbl : List FoldClusterRow) (cid : String)
    (r : EnrichedHitT1) :
    r ∈ tier1CrossTierHits hits domTbl foldTbl cid ↔
      ∃ ct ∈ hits,
        (∃ m ∈ foldTbl, m.cluster_id = cid ∧ m.protein_id = ct.tier1_protein_id) ∧
        ∃ ndc ∈ domTbl, ndc.protein_id = ct.tier2_protein_id ∧
          ndc.domain_num = ct.tier2_domain_num ∧ r = enrichT1 ct ndc := by
  unfold tier1CrossTierHits tier1CrossRaw
  rw [(List.mergeSort_perm _ _).mem_iff]
  simp only [List.mem_flatMap, List.mem_filter, List.mem_map, List.any_eq_true,
    Bool.and_eq_true, beq_iff_eq]
  constructor
  · rintro ⟨ct, ⟨hct, m, hm, hmc, hmp⟩, ndc, ⟨hndc, hp, hd⟩, hr⟩
    exact ⟨ct, hct, ⟨m, hm, hmc, hmp⟩, ndc, hndc, hp, hd, hr.symm⟩
  · rintro ⟨ct, hct, ⟨m, hm, hmc, hmp⟩, ndc, hndc, hp, hd, hr⟩
    exact ⟨ct, ⟨hct, m, hm, hmc, hmp⟩, ndc, ⟨hndc, hp, hd⟩, hr.symm⟩

theorem tier1CrossTierHits_sorted (hits : List CrossTierHit)
    (domTbl : List DomainClusterRow) (foldTbl : List FoldClusterRow) (cid : String) :
    (tier1CrossTierHits hits domTbl foldTbl cid).Pairwise
      (fun a b => scoreDescLe a.alntmscore b.alntmscore = true) := by
  unfold tier1CrossTierHits
  have htrans : ∀ a b c : EnrichedHitT1,
      scoreDescLe a.alntmscore b.alntmscore = true →
      scoreDescLe b.alntmscore c.alntmscore = true →
      scoreDescLe a.alntmscore c.alntmscore = true :=
    fun a b c hab hbc => scoreDescLe_trans _ _ _ hab hbc
  have htotal : ∀ a b : EnrichedHitT1,
      (scoreDescLe a.alntmscore b.alntmscore ||
        scoreDescLe b.alntmscore a.alntmscore) = true :=
    fun a b => scoreDescLe_total _ _
  exact List.sorted_mergeSort htrans htotal (tier1CrossRaw hits domTbl foldTbl cid)

theorem tier2CrossTierHits_mem (hits : List CrossTierHit)
    (foldTbl : List FoldClusterRow) (domTbl : List DomainClusterRow) (cid : String)
    (r : EnrichedHitT2) :
    r ∈ tier2CrossTierHits hits foldTbl domTbl cid ↔
      ∃ ct ∈ hits,
        (∃ d ∈ domTbl, d.cluster_id = cid ∧ d.protein_id = ct.tier2_protein_id) ∧
        ∃ nfc ∈ foldTbl, nfc.protein_id = ct.tier1_protein_id ∧
          r = enrichT2 ct nfc := by
  unfold tier2CrossTierHits tier2CrossRaw
  rw [(List.mergeSort_perm _ _).mem_iff]
  simp only [List.mem_flatMap, List.mem_filter, List.mem_map, List.elem_eq_mem,
    List.mem_map, decide_eq_true_eq, Bool.and_eq_true, beq_iff_eq]
  constructor
  · rintro ⟨ct, ⟨hct, d, ⟨hdt, hdcid⟩, hdc⟩, nfc, ⟨hnfc, hnp⟩, hr⟩
    exact ⟨ct, hct, ⟨d, hdt, hdcid, hdc⟩, nfc, hnfc, hnp, hr.symm⟩
  · rintro ⟨ct, hct, ⟨d, hdt, hdcid, hdc⟩, nfc, hnfc, hnp, hr⟩
    exact ⟨ct, ⟨hct, d, ⟨hdt, hdcid⟩, hdc⟩, nfc, ⟨hnfc, hnp⟩, hr.symm⟩

theorem tier2CrossTierHits_sorted (hits : List CrossTierHit)
    (foldTbl : List FoldClusterRow) (domTbl : List DomainClusterRow) (cid : String) :
    (tier2CrossTierHits hits foldTbl domTbl cid).Pairwise
      (fun a b => scoreDescLe a.alntmscore b.alntmscore = true) := by
  unfold tier2CrossTierHits
  have htrans : ∀ a b c : EnrichedHitT2,
      scoreDescLe a.alntmscore b.alntmscore = true →
      scoreDescLe b.alntmscore c.alntmscore = true →
      scoreDescLe a.alntmscore c.alntmscore = true :=
    fun a b c hab hbc => scoreDescLe_trans _ _ _ hab hbc
  have htotal : ∀ a b : EnrichedHitT2,
      (scoreDescLe a.alntmscore b.alntmscore ||
        scoreDescLe b.alntmscore a.alntmscore) = true :=
    fun a b => scoreDescLe_total _ _
  exact List.sorted_mergeSort htrans htotal (tier2CrossRaw hits foldTbl domTbl cid)

/-- A cross-tier hit from protein `P1` to the tier-2 domain `(Q1, 1)`. -/
def hitQ1 : CrossTierHit := ⟨"P1", "Q1", 1, none, none, none, some 1⟩

/-- A Tier-1 membership row placing `P1` in cluster `T1_C1`. -/
def foldRowP1 : FoldClusterRow := ⟨"P1", "T1_C1", 1, none, none, none⟩

/-- Counterexample to C4 as stated: with `P1` a member of `T1_C1` and a
cross-tier hit from `P1` to the domain `(Q1, 1)`, which belongs to zero
Tier-2 clusters (no `novel_domain_clusters` row), the Tier-1 cross-tier
query returns no rows at all: the inner join drops the hit instead of
returning it with null cluster fields. -/
theorem tier1CrossTierHits_drops_unclustered :
    hitQ1 ∈ [hitQ1] ∧
    (∃ m ∈ [foldRowP1], m.cluster_id = "T1_C1" ∧
      m.protein_id = hitQ1.tier1_protein_id) ∧
    (∀ ndc : DomainClusterRow, ndc ∈ ([] : List DomainClusterRow) → False) ∧
    tier1CrossTierHits [hitQ1] [] [foldRowP1] "T1_C1" = [] := by
  refine ⟨List.mem_singleton_self _,
    ⟨foldRowP1, List.mem_singleton_self _, rfl, rfl⟩, by simp, ?_⟩
  have hraw : tier1CrossRaw [hitQ1] [] [foldRowP1] "T1_C1" = [] := by
    simp [tier1CrossRaw]
  rw [tier1CrossTierHits, hraw, List.mergeSort_nil]

/-- C4 (amended): the cross-tier hits query for a Tier-1 cluster returns
exactly the hits whose tier-1 side is a member protein of the cluster and
whose matched tier-2 domain has a row in the Tier-2 cluster table (the inner
join omits hits whose domain belongs to zero Tier-2 clusters, rather than
returning them with null cluster fields), each enriched with that row's
cluster id and size; symmetrically, the Tier-2 query returns exactly the
hits whose tier-2 protein owns a member domain and whose tier-1 protein has
a Tier-1 cluster row, enriched with Tier-1 cluster id/size; both results are
ordered by the alignment similarity score `alntmscore` descending (SQL
nulls first). -/
theorem crossTierHits_characterisation (hits : List CrossTierHit)
    (domTbl : List DomainClusterRow) (foldTbl : List FoldClusterRow) (cid : String) :
    (∀ r : EnrichedHitT1,
      r ∈ tier1CrossTierHits hits domTbl foldTbl cid ↔
        ∃ ct ∈ hits,
          (∃ m ∈ foldTbl, m.cluster_id = cid ∧ m.protein_id = ct.tier1_protein_id) ∧
          ∃ ndc ∈ domTbl, ndc.protein_id = ct.tier2_protein_id ∧
            ndc.domain_num = ct.tier2_domain_num ∧ r = enrichT1 ct ndc) ∧
    (tier1CrossTierHits hits domTbl foldTbl cid).Pairwise
      (fun a b => scoreDescLe a.alntmscore b.alntmscore = true) ∧
    (∀ r : EnrichedHitT2,
      r ∈ tier2CrossTierHits hits foldTbl domTbl cid ↔
        ∃ ct ∈ hits,
          (∃ d ∈ domTbl, d.cluster_id = cid ∧ d.protein_id = ct.tier2_protein_id) ∧
          ∃ nfc ∈ foldTbl, nfc.protein_id = ct.tier1_protein_id ∧
            r = enrichT2 ct nfc) ∧
    (tier2CrossTierHits hits foldTbl domTbl cid).Pairwise
      (fun a b => scoreDescLe a.alntmscore b.alntmscore = true) :=
  ⟨fun r => tier1CrossTierHits_mem hits domTbl foldTbl cid r,
    tier1CrossTierHits_sorted hits domTbl foldTbl cid,
    fun r => tier2CrossTierHits_mem hits foldTbl domTbl cid r,
    tier2CrossTierHits_sorted hits foldTbl domTbl cid⟩

end ArchaeaVis
